import Mathlib

/-!
Verification of the cardiovascular-risk backend (`BACKEND/routes/prediction.js`).

The development shallowly embeds the risk-decision pipeline: the validated
input record (`FormData`), the remote ML-service call (its outcome modelled as
an explicit `RemoteOutcome` value), the rule-based fallback estimator, the
POST /api/predict handler response assembly, the GET /api/predictions
pagination, and the GET /api/statistics aggregation.  JavaScript numbers are
embedded as exact rationals (`ℚ`); integer-typed fields as `ℤ`; JavaScript
falsy-default expressions (`a || b`) on numbers and strings are embedded by
`jsOrQ` / `jsOrS`, which treat `0` and `""` as absent.
-/

/-- The validated request payload of POST /api/predict
(fields `age .. active` of the Joi schema, lines 169-179). -/
structure FormData where
  age : ℤ
  gender : ℤ
  height : ℤ
  weight : ℤ
  ap_hi : ℤ
  ap_lo : ℤ
  cholesterol : ℤ
  gluc : ℤ
  smoke : ℤ
  alco : ℤ
  active : ℤ
deriving DecidableEq, Repr

/-- The per-field domains declared by the Joi schema (lines 169-179):
every field an integer in its range or closed enum. -/
def ValidMetrics (fd : FormData) : Prop :=
  1 ≤ fd.age ∧ fd.age ≤ 120 ∧
  (fd.gender = 1 ∨ fd.gender = 2) ∧
  100 ≤ fd.height ∧ fd.height ≤ 250 ∧
  30 ≤ fd.weight ∧ fd.weight ≤ 200 ∧
  80 ≤ fd.ap_hi ∧ fd.ap_hi ≤ 250 ∧
  40 ≤ fd.ap_lo ∧ fd.ap_lo ≤ 150 ∧
  (fd.cholesterol = 1 ∨ fd.cholesterol = 2 ∨ fd.cholesterol = 3) ∧
  (fd.gluc = 1 ∨ fd.gluc = 2 ∨ fd.gluc = 3) ∧
  (fd.smoke = 0 ∨ fd.smoke = 1) ∧
  (fd.alco = 0 ∨ fd.alco = 1) ∧
  (fd.active = 0 ∨ fd.active = 1)

instance (fd : FormData) : Decidable (ValidMetrics fd) := by
  unfold ValidMetrics; infer_instance

/-- JavaScript `Number.prototype.toFixed(1)` on a nonnegative value,
kept as a rational: round to one decimal place. -/
def jsToFixed1 (q : ℚ) : ℚ :=
  (round (q * 10) : ℤ) / 10

/-- `heightInM = formData.height / 100; bmi = formData.weight / (heightInM * heightInM)`
(lines 81-82, and the identical computation at lines 51-52). -/
def heuristicBMI (fd : FormData) : ℚ :=
  let heightInM : ℚ := (fd.height : ℚ) / 100
  (fd.weight : ℚ) / (heightInM * heightInM)

/-- The `riskFactors` array of the rule-based fallback (lines 84-95). -/
def heuristicRiskFactors (fd : FormData) : List ℚ :=
  [ if fd.age > 55 then 25 else if fd.age > 45 then 15 else 5,
    if fd.gender = 2 then 10 else 5,
    if heuristicBMI fd > 30 then 20 else if heuristicBMI fd > 25 then 10 else 0,
    if fd.ap_hi > 140 then 25 else if fd.ap_hi > 120 then 15 else 5,
    if fd.ap_lo > 90 then 20 else if fd.ap_lo > 80 then 10 else 5,
    if fd.cholesterol = 3 then 25 else if fd.cholesterol = 2 then 15 else 0,
    if fd.gluc = 3 then 20 else if fd.gluc = 2 then 10 else 0,
    if fd.smoke = 1 then 15 else 0,
    if fd.alco = 1 then 5 else 0,
    if fd.active = 0 then 10 else 0 ]

/-- `totalRisk = riskFactors.reduce((sum, risk) => sum + risk, 0)` (line 97). -/
def heuristicTotalRisk (fd : FormData) : ℚ :=
  (heuristicRiskFactors fd).sum

/-- `confidence = Math.min(Math.max(totalRisk, 10), 95)` (line 98). -/
def heuristicConfidence (fd : FormData) : ℚ :=
  min (max (heuristicTotalRisk fd) 10) 95

/-- Diagnostic details attached only to ML-sourced predictions (lines 62-67). -/
structure MLDetails where
  model_confidence : ℚ
  bmi_category : String
  interpretation : String
  recommendation : String
deriving DecidableEq, Repr

/-- The object returned by `predictCardiovascularRisk` (lines 55-68 and 102-109).
`risk` is optional because the ML branch forwards the extracted `prediction`,
which the source does not force to be present. -/
structure PredictionResult where
  risk : Option ℤ
  confidence : ℚ
  probability : ℚ
  risk_label : String
  bmi : ℚ
  source : String
  ml_details : Option MLDetails := none
deriving DecidableEq, Repr

/-- The rule-based fallback branch of `predictCardiovascularRisk` (lines 80-109). -/
def heuristicPrediction (fd : FormData) : PredictionResult :=
  let confidence := heuristicConfidence fd
  let risk : ℤ := if confidence ≥ 65 then 1 else 0
  { risk := some risk
  , confidence := confidence
  , probability := confidence / 100
  , risk_label := if risk = 1 then "High Risk" else "Low Risk"
  , bmi := jsToFixed1 (heuristicBMI fd)
  , source := "rule_based"
  , ml_details := none }

/-- JavaScript `a || b` on a possibly-absent number: a present `0` is falsy
and falls through to the default. -/
def jsOrQ : Option ℚ → ℚ → ℚ
  | some q, d => if q = 0 then d else q
  | none, d => d

/-- JavaScript `a || b` on a possibly-absent string: a present `""` is falsy
and falls through to the default. -/
def jsOrS : Option String → String → String
  | some s, d => if s = "" then d else s
  | none, d => d

/-- The fields the normalization step (lines 41-67) reads from a level of the
ML-service response body.  `patient_bmi` and `patient_bmi_category` stand for
`patient_data?.bmi` and `patient_data?.bmi_category`; an absent `patient_data`
collapses to both being `none`, exactly as the optional chaining does. -/
structure MLFields where
  success : Bool := false
  prediction : Option ℤ := none
  confidence : Option ℚ := none
  probability : Option ℚ := none
  risk_level : Option String := none
  bmi : Option ℚ := none
  patient_bmi : Option ℚ := none
  patient_bmi_category : Option String := none
  bmi_category : Option String := none
  interpretation : Option String := none
  result_message : Option String := none
  recommendation : Option String := none
deriving DecidableEq, Repr

/-- An ML-service response body (`mlResponse.data`): its top-level fields plus
the optional nested wrapper `mlResponse.data.data` (line 42). -/
structure MLResponse where
  top : MLFields
  nested : Option MLFields := none
deriving DecidableEq, Repr

/-- JavaScript `String.prototype.toUpperCase` on the ASCII risk-level strings:
uppercase every character. -/
def jsToUpperCase (s : String) : String :=
  String.mk (s.data.map Char.toUpper)

/-- `const responseData = mlResponse.data.data || mlResponse.data` (line 42). -/
def responseDataOf (r : MLResponse) : MLFields :=
  r.nested.getD r.top

/-- `responseData.prediction !== undefined ? responseData.prediction
: mlResponse.data.prediction` (line 45). -/
def extractPrediction (r : MLResponse) : Option ℤ :=
  match (responseDataOf r).prediction with
  | some p => some p
  | none => r.top.prediction

/-- `responseData.confidence || mlResponse.data.confidence || 0.5` (line 46). -/
def extractConfidence (r : MLResponse) : ℚ :=
  jsOrQ (responseDataOf r).confidence (jsOrQ r.top.confidence (1/2))

/-- `responseData.risk_level || mlResponse.data.risk_level ||
(prediction === 1 ? HIGH : LOW)` (line 48). -/
def extractRiskLevel (r : MLResponse) : String :=
  jsOrS (responseDataOf r).risk_level
    (jsOrS r.top.risk_level (if extractPrediction r = some 1 then "HIGH" else "LOW"))

/-- The ML-success branch of `predictCardiovascularRisk` (lines 42-68):
normalizes the heterogeneous response into a `PredictionResult`. -/
def mlResult (fd : FormData) (r : MLResponse) : PredictionResult :=
  let rd := responseDataOf r
  let prediction := extractPrediction r
  let confidence := extractConfidence r
  let probability := jsOrQ rd.probability (jsOrQ r.top.probability confidence)
  let riskLevel := extractRiskLevel r
  let bmi := jsOrQ rd.patient_bmi (jsOrQ rd.bmi (jsToFixed1 (heuristicBMI fd)))
  { risk := prediction
  , confidence := (round (confidence * 100) : ℤ)
  , probability := probability
  , risk_label := if jsToUpperCase riskLevel = "HIGH" then "High Risk" else "Low Risk"
  , bmi := bmi
  , source := "ml_model"
  , ml_details := some {
      model_confidence := confidence
    , bmi_category := jsOrS rd.patient_bmi_category (jsOrS rd.bmi_category "Unknown")
    , interpretation := jsOrS rd.interpretation (jsOrS r.top.interpretation "ML prediction completed")
    , recommendation := jsOrS rd.result_message
        (jsOrS r.top.result_message (jsOrS rd.recommendation "Follow medical advice")) } }

/-- Outcome of the axios POST to the ML service: `failure` covers every thrown
error (timeout, connection refused, non-2xx status), `response` an HTTP
success carrying a parsed JSON body. -/
inductive RemoteOutcome where
  | failure : RemoteOutcome
  | response : MLResponse → RemoteOutcome
deriving DecidableEq, Repr

/-- `mlResponse.data && (mlResponse.data.success || mlResponse.data.prediction
!== undefined)` (line 41): the response is recognized as a success. -/
def mlResponseRecognized (r : MLResponse) : Bool :=
  r.top.success || r.top.prediction.isSome

/-- `predictCardiovascularRisk` (lines 15-110): try the ML service; any thrown
error or unrecognizable response body falls through to the rule-based branch. -/
def predictCardiovascularRisk (fd : FormData) (o : RemoteOutcome) : PredictionResult :=
  match o with
  | .failure => heuristicPrediction fd
  | .response r =>
      if mlResponseRecognized r then mlResult fd r else heuristicPrediction fd

/-- Outcomes on which the ML path produces no result and the rule-based
fallback runs: a thrown request error, or a response body lacking any
recognizable success indicator. -/
def isRemoteFailure : RemoteOutcome → Bool
  | .failure => true
  | .response r => !(mlResponseRecognized r)

/-- The JSON body POSTed to the ML service (lines 18-30). -/
structure RemotePayload where
  age : ℤ
  gender : ℤ
  height : ℤ
  weight : ℤ
  ap_hi : ℤ
  ap_lo : ℤ
  cholesterol : ℤ
  gluc : ℤ
  smoke : ℤ
  alco : ℤ
  active : ℤ
deriving DecidableEq, Repr

/-- Assembly of the remote request body (lines 19-29), including the gender
remap `formData.gender === 1 ? 0 : 1` (line 20). -/
def buildRemotePayload (fd : FormData) : RemotePayload :=
  { age := fd.age
  , gender := if fd.gender = 1 then 0 else 1
  , height := fd.height
  , weight := fd.weight
  , ap_hi := fd.ap_hi
  , ap_lo := fd.ap_lo
  , cholesterol := fd.cholesterol
  , gluc := fd.gluc
  , smoke := fd.smoke
  , alco := fd.alco
  , active := fd.active }

/-- Gender rendering `inputData.gender === 2 ? Female : Male` (line 228). -/
def renderGender (g : ℤ) : String :=
  if g = 2 then "Female" else "Male"

/-- Cholesterol rendering of the `patient_data` object (line 233). -/
def renderCholesterol (c : ℤ) : String :=
  if c = 1 then "Normal" else if c = 2 then "Above Normal" else "Well Above Normal"

/-- Glucose rendering of the `patient_data` object (line 234). -/
def renderGlucose (g : ℤ) : String :=
  if g = 1 then "Normal" else if g = 2 then "Above Normal" else "Well Above Normal"

/-- Lifestyle rendering `v === 1 ? Yes : No` (lines 236-238). -/
def renderYesNo (v : ℤ) : String :=
  if v = 1 then "Yes" else "No"

/-- The `patient_data` object of the POST /api/predict response (lines 226-240). -/
structure PatientView where
  age : ℤ
  gender : String
  height : ℤ
  weight : ℤ
  bmi : ℚ
  blood_pressure : String
  cholesterol : String
  glucose : String
  smoking : String
  alcohol : String
  physical_activity : String
deriving DecidableEq, Repr

/-- The POST /api/predict 200 response body (lines 216-244). -/
structure PredictResponse where
  success : Bool
  prediction : PredictionResult
  patient : PatientView
  ml_insights : Option MLDetails
  saved : Bool
  message : String
deriving DecidableEq, Repr

/-- The POST /api/predict handler after validation (lines 183-247): run the
pipeline, attempt the insert (its failure reported through `saveError`, the
supabase `error` field, line 209), and assemble the 200 response.  The insert
error is only logged; `saved := !saveError` (line 242). -/
def postPredictHandler (fd : FormData) (o : RemoteOutcome) (saveError : Bool) :
    ℕ × PredictResponse :=
  let p := predictCardiovascularRisk fd o
  (200,
   { success := true
   , prediction := p
   , patient :=
     { age := fd.age
     , gender := renderGender fd.gender
     , height := fd.height
     , weight := fd.weight
     , bmi := p.bmi
     , blood_pressure := toString fd.ap_hi ++ "/" ++ toString fd.ap_lo
     , cholesterol := renderCholesterol fd.cholesterol
     , glucose := renderGlucose fd.gluc
     , smoking := renderYesNo fd.smoke
     , alcohol := renderYesNo fd.alco
     , physical_activity := renderYesNo fd.active }
   , ml_insights := p.ml_details
   , saved := !saveError
   , message := "Prediction completed successfully" })

/-- A row of the `cardiovascular_predictions` table as read back by the list
and statistics endpoints (`risk_prediction`, `gender`, `age`, `bmi`,
`created_at`). -/
structure StoredRecord where
  created_at : ℕ
  risk_prediction : ℤ
  gender : ℤ
  age : ℤ
  bmi : Option ℚ
deriving DecidableEq, Repr

/-- Insert a record into a list kept in descending `created_at` order. -/
def insertDesc (r : StoredRecord) : List StoredRecord → List StoredRecord
  | [] => [r]
  | x :: xs => if x.created_at ≤ r.created_at then r :: x :: xs else x :: insertDesc r xs

/-- Sort records by `created_at` descending: the order clause with ascending
false that the handler puts on the query (line 283). -/
def sortByCreatedDesc : List StoredRecord → List StoredRecord
  | [] => []
  | x :: xs => insertDesc x (sortByCreatedDesc xs)

/-- The optional `eq` filters the handler adds to the query (lines 286-291). -/
def matchesFilter (riskLevel gender : Option ℤ) (r : StoredRecord) : Bool :=
  (match riskLevel with | some v => r.risk_prediction = v | none => true) &&
  (match gender with | some v => r.gender = v | none => true)

/-- Model of the record store filtered, ordered, ranged query with exact
count, as built by the handler (lines 280-291): rows matching the filters,
ordered by `created_at` descending, cut to the inclusive index range
`[lo, hi]` (supabase `range`), paired with the total matching row count
(the exact count option of the select, line 282). -/
def storeQuery (store : List StoredRecord) (riskLevel gender : Option ℤ)
    (lo hi : ℕ) : List StoredRecord × ℕ :=
  let rows := sortByCreatedDesc (store.filter (matchesFilter riskLevel gender))
  ((rows.drop lo).take (hi + 1 - lo), rows.length)

/-- The `pagination` object of the GET /api/predictions response
(lines 302-307). -/
structure Pagination where
  page : ℕ
  limit : ℕ
  total : ℕ
  totalPages : ℤ
deriving DecidableEq, Repr

/-- The GET /api/predictions handler after query validation (lines 275-308):
`offset = (page - 1) * limit`, range `[offset, offset + limit - 1]`,
`totalPages = Math.ceil(count / limit)`. -/
def getPredictionsHandler (store : List StoredRecord) (page limit : ℕ)
    (riskLevel gender : Option ℤ) : List StoredRecord × Pagination :=
  let offset := (page - 1) * limit
  let res := storeQuery store riskLevel gender offset (offset + limit - 1)
  (res.1,
   { page := page
   , limit := limit
   , total := res.2
   , totalPages := ⌈(res.2 : ℚ) / (limit : ℚ)⌉ })

/-- The `stats` object of the GET /api/statistics response (lines 335-348). -/
structure Statistics where
  total : ℕ
  highRisk : ℕ
  lowRisk : ℕ
  male : ℕ
  female : ℕ
  averageAge : ℚ
  averageBMI : ℚ
deriving DecidableEq, Repr

/-- JavaScript truthiness of the `bmi` column as used by
`data.filter(item => item.bmi)` (lines 345-347): a null and a zero `bmi`
are both falsy. -/
def bmiTruthy : Option ℚ → Bool
  | none => false
  | some q => q != 0

/-- The statistics computation (lines 335-348) over the fetched rows. -/
def computeStatistics (data : List StoredRecord) : Statistics :=
  let withBMI := data.filter (fun r => bmiTruthy r.bmi)
  { total := data.length
  , highRisk := (data.filter (fun r => r.risk_prediction = 1)).length
  , lowRisk := (data.filter (fun r => r.risk_prediction = 0)).length
  , male := (data.filter (fun r => r.gender = 2)).length
  , female := (data.filter (fun r => r.gender = 1)).length
  , averageAge :=
      if 0 < data.length then
        ((data.map (fun r => (r.age : ℚ))).sum) / (data.length : ℚ)
      else 0
  , averageBMI :=
      if 0 < withBMI.length then
        ((withBMI.map (fun r => r.bmi.getD 0)).sum) / (withBMI.length : ℚ)
      else 0 }

/-- Specification-side BMI, as the claim words it:
weight_kg / (height_cm / 100) squared. -/
def claimBMI (fd : FormData) : ℚ :=
  (fd.weight : ℚ) / (((fd.height : ℚ) / 100) ^ 2)

/-- Specification-side risk-factor sum, written as the claim lists the
fixed-threshold contributions. -/
def claimRiskSum (fd : FormData) : ℚ :=
  (if fd.age > 55 then 25 else if fd.age > 45 then 15 else 5)
  + (if fd.gender = 2 then 10 else 5)
  + (if claimBMI fd > 30 then 20 else if claimBMI fd > 25 then 10 else 0)
  + (if fd.ap_hi > 140 then 25 else if fd.ap_hi > 120 then 15 else 5)
  + (if fd.ap_lo > 90 then 20 else if fd.ap_lo > 80 then 10 else 5)
  + (if fd.cholesterol = 3 then 25 else if fd.cholesterol = 2 then 15 else 0)
  + (if fd.gluc = 3 then 20 else if fd.gluc = 2 then 10 else 0)
  + (if fd.smoke = 1 then 15 else 0)
  + (if fd.alco = 1 then 5 else 0)
  + (if fd.active = 0 then 10 else 0)

/-- Specification-side confidence: the risk-factor sum clamped to the
interval from 10 to 95, written as the claim words the clamp. -/
def claimConfidence (fd : FormData) : ℚ :=
  if claimRiskSum fd < 10 then 10
  else if 95 < claimRiskSum fd then 95
  else claimRiskSum fd

/-- Specification-side risk bit: 1 exactly when confidence is at least 65. -/
def claimRisk (fd : FormData) : ℤ :=
  if 65 ≤ claimConfidence fd then 1 else 0

/-- Specification-side probability: confidence over 100. -/
def claimProbability (fd : FormData) : ℚ :=
  claimConfidence fd / 100

/-- Risk label as the amended claim words it: heuristic-sourced results derive
it from the risk bit alone; remote-sourced results derive it from the
effective risk level, which is the supplied risk_level string when present and
nonempty (nested wrapper first), else HIGH or LOW according to the extracted
prediction. -/
def amendedRiskLabel (fd : FormData) (o : RemoteOutcome) : String :=
  match o with
  | .failure => if claimRisk fd = 1 then "High Risk" else "Low Risk"
  | .response r =>
      if mlResponseRecognized r then
        if jsToUpperCase (extractRiskLevel r) = "HIGH" then "High Risk" else "Low Risk"
      else if claimRisk fd = 1 then "High Risk" else "Low Risk"

/-- Total pages as the claim words it: the ceiling of total over limit,
written with the usual natural-number ceiling-division formula. -/
def claimTotalPages (total limit : ℕ) : ℕ :=
  (total + limit - 1) / limit

/-- Statistics as the claim words them: averageBMI averages the BMI values of
exactly those records that have a BMI value, a present zero included. -/
def claimStatistics (data : List StoredRecord) : Statistics :=
  let present := data.filter (fun r => r.bmi.isSome)
  { total := data.length
  , highRisk := data.countP (fun r => r.risk_prediction = 1)
  , lowRisk := data.countP (fun r => r.risk_prediction = 0)
  , male := data.countP (fun r => r.gender = 2)
  , female := data.countP (fun r => r.gender = 1)
  , averageAge :=
      if data = [] then 0
      else ((data.map (fun r => (r.age : ℚ))).sum) / (data.length : ℚ)
  , averageBMI :=
      if present = [] then 0
      else ((present.map (fun r => r.bmi.getD 0)).sum) / (present.length : ℚ) }

/-- Statistics as the amended claim words them: averageBMI averages the BMI
values of exactly those records whose BMI value is present and nonzero. -/
def amendedStatistics (data : List StoredRecord) : Statistics :=
  let present := data.filter (fun r => r.bmi.isSome && decide (r.bmi ≠ some 0))
  { total := data.length
  , highRisk := data.countP (fun r => r.risk_prediction = 1)
  , lowRisk := data.countP (fun r => r.risk_prediction = 0)
  , male := data.countP (fun r => r.gender = 2)
  , female := data.countP (fun r => r.gender = 1)
  , averageAge :=
      if data = [] then 0
      else ((data.map (fun r => (r.age : ℚ))).sum) / (data.length : ℚ)
  , averageBMI :=
      if present = [] then 0
      else ((present.map (fun r => r.bmi.getD 0)).sum) / (present.length : ℚ) }

/-- A concrete valid female input (age 30, gender 1). -/
def sampleFemale : FormData :=
  { age := 30, gender := 1, height := 165, weight := 55, ap_hi := 110
  , ap_lo := 70, cholesterol := 1, gluc := 1, smoke := 0, alco := 0, active := 1 }

/-- A concrete valid male input (age 60, gender 2). -/
def sampleMale : FormData :=
  { age := 60, gender := 2, height := 170, weight := 90, ap_hi := 150
  , ap_lo := 95, cholesterol := 3, gluc := 3, smoke := 1, alco := 0, active := 0 }

/-- A remote response body recognized as a success whose supplied risk_level
string contradicts its prediction bit. -/
def discordantResponse : MLResponse :=
  { top := { success := true, prediction := some 1, risk_level := some "LOW" } }

/-- A record set containing a record whose BMI value is present but zero. -/
def zeroBMIData : List StoredRecord :=
  [ { created_at := 0, risk_prediction := 1, gender := 2, age := 30, bmi := some 0 }
  , { created_at := 1, risk_prediction := 0, gender := 1, age := 40, bmi := some 4 } ]

/-- A concrete stored record set for the pagination witness. -/
def sampleStore : List StoredRecord :=
  [ { created_at := 5, risk_prediction := 1, gender := 2, age := 60, bmi := some 31 }
  , { created_at := 3, risk_prediction := 0, gender := 1, age := 30, bmi := none } ]

lemma heuristicBMI_eq_claimBMI (fd : FormData) : heuristicBMI fd = claimBMI fd := by
  simp [heuristicBMI, claimBMI, pow_two]

lemma heuristicTotalRisk_eq_claimRiskSum (fd : FormData) :
    heuristicTotalRisk fd = claimRiskSum fd := by
  simp only [heuristicTotalRisk, heuristicRiskFactors, claimRiskSum,
    List.sum_cons, List.sum_nil, heuristicBMI_eq_claimBMI]
  ring

lemma heuristicConfidence_eq_claimConfidence (fd : FormData) :
    heuristicConfidence fd = claimConfidence fd := by
  unfold heuristicConfidence claimConfidence
  rw [heuristicTotalRisk_eq_claimRiskSum]
  rcases lt_or_le (claimRiskSum fd) 10 with h1 | h1
  · rw [if_pos h1, max_eq_right h1.le, min_eq_left (by norm_num)]
  · rw [if_neg (not_lt.mpr h1), max_eq_left h1]
    rcases lt_or_le 95 (claimRiskSum fd) with h2 | h2
    · rw [if_pos h2, min_eq_right h2.le]
    · rw [if_neg (not_lt.mpr h2), min_eq_left h2]

/-- C2: for every input, the rule-based estimator computes exactly the
quantities the claim lists: the BMI formula, the clamped risk-factor sum as
confidence, the risk bit as the 65-threshold on confidence, and probability
as confidence over 100. -/
theorem heuristic_estimator_matches_spec (fd : FormData) :
    heuristicBMI fd = claimBMI fd ∧
    (heuristicPrediction fd).confidence = claimConfidence fd ∧
    (heuristicPrediction fd).risk = some (claimRisk fd) ∧
    (heuristicPrediction fd).probability = claimProbability fd := by
  refine ⟨heuristicBMI_eq_claimBMI fd, ?_, ?_, ?_⟩
  · simpa [heuristicPrediction] using heuristicConfidence_eq_claimConfidence fd
  · simp [heuristicPrediction, claimRisk, heuristicConfidence_eq_claimConfidence]
  · simp [heuristicPrediction, claimProbability, heuristicConfidence_eq_claimConfidence]

lemma heuristicTotalRisk_ge_twenty (fd : FormData) : 20 ≤ heuristicTotalRisk fd := by
  have h1 : (5 : ℚ) ≤ if fd.age > 55 then 25 else if fd.age > 45 then 15 else 5 := by
    split_ifs <;> norm_num
  have h2 : (5 : ℚ) ≤ if fd.gender = 2 then 10 else 5 := by
    split_ifs <;> norm_num
  have h3 : (0 : ℚ) ≤
      if heuristicBMI fd > 30 then 20 else if heuristicBMI fd > 25 then 10 else 0 := by
    split_ifs <;> norm_num
  have h4 : (5 : ℚ) ≤ if fd.ap_hi > 140 then 25 else if fd.ap_hi > 120 then 15 else 5 := by
    split_ifs <;> norm_num
  have h5 : (5 : ℚ) ≤ if fd.ap_lo > 90 then 20 else if fd.ap_lo > 80 then 10 else 5 := by
    split_ifs <;> norm_num
  have h6 : (0 : ℚ) ≤
      if fd.cholesterol = 3 then 25 else if fd.cholesterol = 2 then 15 else 0 := by
    split_ifs <;> norm_num
  have h7 : (0 : ℚ) ≤ if fd.gluc = 3 then 20 else if fd.gluc = 2 then 10 else 0 := by
    split_ifs <;> norm_num
  have h8 : (0 : ℚ) ≤ if fd.smoke = 1 then 15 else 0 := by split_ifs <;> norm_num
  have h9 : (0 : ℚ) ≤ if fd.alco = 1 then 5 else 0 := by split_ifs <;> norm_num
  have h10 : (0 : ℚ) ≤ if fd.active = 0 then 10 else 0 := by split_ifs <;> norm_num
  simp only [heuristicTotalRisk, heuristicRiskFactors, List.sum_cons, List.sum_nil]
  linarith

/-- C10: for every valid input the risk-factor sum is at least 20, so the
lower clamp at 10 is inactive and the heuristic confidence lies between
20 and 95. -/
theorem heuristic_confidence_in_twenty_ninetyfive (fd : FormData)
    (hv : ValidMetrics fd) :
    20 ≤ heuristicTotalRisk fd ∧
    max (heuristicTotalRisk fd) 10 = heuristicTotalRisk fd ∧
    20 ≤ heuristicConfidence fd ∧ heuristicConfidence fd ≤ 95 := by
  have h := heuristicTotalRisk_ge_twenty fd
  have hmax : max (heuristicTotalRisk fd) 10 = heuristicTotalRisk fd :=
    max_eq_left (by linarith)
  refine ⟨h, hmax, ?_, min_le_right _ _⟩
  unfold heuristicConfidence
  rw [hmax]
  exact le_min h (by norm_num)

/-- Closed instance of the C10 theorem at a concrete valid input. -/
theorem heuristic_confidence_in_twenty_ninetyfive_witness :
    ValidMetrics sampleFemale ∧
    (20 ≤ heuristicTotalRisk sampleFemale ∧
     max (heuristicTotalRisk sampleFemale) 10 = heuristicTotalRisk sampleFemale ∧
     20 ≤ heuristicConfidence sampleFemale ∧ heuristicConfidence sampleFemale ≤ 95) :=
  ⟨by decide, heuristic_confidence_in_twenty_ninetyfive sampleFemale (by decide)⟩

/-- C1: on any remote failure — a thrown request error or a response with no
recognizable success indicator — the pipeline returns exactly the rule-based
result, whose source field is the heuristic marker and which carries no
ml_details; the function is total, so no error reaches the caller. -/
theorem remote_failure_falls_back_to_heuristic (fd : FormData) (o : RemoteOutcome)
    (hv : ValidMetrics fd) (hf : isRemoteFailure o = true) :
    predictCardiovascularRisk fd o = heuristicPrediction fd ∧
    (predictCardiovascularRisk fd o).source = "rule_based" ∧
    (predictCardiovascularRisk fd o).ml_details = none := by
  have he : predictCardiovascularRisk fd o = heuristicPrediction fd := by
    cases o with
    | failure => rfl
    | response r =>
        simp only [isRemoteFailure, Bool.not_eq_true'] at hf
        simp [predictCardiovascularRisk, hf]
  refine ⟨he, ?_, ?_⟩ <;> rw [he] <;> rfl

/-- Closed instance of the C1 theorem at a concrete valid input and a thrown
remote error. -/
theorem remote_failure_falls_back_to_heuristic_witness :
    ValidMetrics sampleFemale ∧ isRemoteFailure RemoteOutcome.failure = true ∧
    (predictCardiovascularRisk sampleFemale RemoteOutcome.failure =
        heuristicPrediction sampleFemale ∧
     (predictCardiovascularRisk sampleFemale RemoteOutcome.failure).source =
        "rule_based" ∧
     (predictCardiovascularRisk sampleFemale RemoteOutcome.failure).ml_details =
        none) :=
  ⟨by decide, rfl,
   remote_failure_falls_back_to_heuristic sampleFemale RemoteOutcome.failure
     (by decide) rfl⟩

/-- C3: the remote request body carries the remapped gender — caller gender 1
is transmitted as 0 and caller gender 2 as 1 — and every other payload field
unchanged. -/
theorem remote_payload_remaps_gender (fd : FormData) :
    ((fd.gender = 1 → (buildRemotePayload fd).gender = 0) ∧
     (fd.gender = 2 → (buildRemotePayload fd).gender = 1)) ∧
    (buildRemotePayload fd).age = fd.age ∧
    (buildRemotePayload fd).height = fd.height ∧
    (buildRemotePayload fd).weight = fd.weight ∧
    (buildRemotePayload fd).ap_hi = fd.ap_hi ∧
    (buildRemotePayload fd).ap_lo = fd.ap_lo ∧
    (buildRemotePayload fd).cholesterol = fd.cholesterol ∧
    (buildRemotePayload fd).gluc = fd.gluc ∧
    (buildRemotePayload fd).smoke = fd.smoke ∧
    (buildRemotePayload fd).alco = fd.alco ∧
    (buildRemotePayload fd).active = fd.active := by
  refine ⟨⟨fun h => ?_, fun h => ?_⟩, rfl, rfl, rfl, rfl, rfl, rfl, rfl, rfl, rfl, rfl⟩
  · simp [buildRemotePayload, h]
  · norm_num [buildRemotePayload, h]

/-- Closed instance of the C3 theorem: the female sample is transmitted with
gender 0 and the male sample with gender 1. -/
theorem remote_payload_remaps_gender_witness :
    (buildRemotePayload sampleFemale).gender = 0 ∧
    (buildRemotePayload sampleMale).gender = 1 :=
  ⟨(remote_payload_remaps_gender sampleFemale).1.1 rfl,
   (remote_payload_remaps_gender sampleMale).1.2 rfl⟩

/-- C4 counterexample: a recognized remote response carrying prediction 1 and
the supplied string LOW yields a result with risk 1 whose risk_label is
Low Risk, so risk_label is not derived from the risk field alone. -/
theorem risk_label_counterexample :
    (predictCardiovascularRisk sampleFemale
        (RemoteOutcome.response discordantResponse)).risk = some 1 ∧
    (predictCardiovascularRisk sampleFemale
        (RemoteOutcome.response discordantResponse)).risk_label = "Low Risk" ∧
    (predictCardiovascularRisk sampleFemale
        (RemoteOutcome.response discordantResponse)).risk_label ≠ "High Risk" := by
  refine ⟨rfl, ?_, ?_⟩ <;> decide

/-- C4 amended: risk_label is High Risk exactly when the effective risk level
uppercases to HIGH — for heuristic-sourced results that level is derived from
the risk bit alone, for remote-sourced results it is the supplied risk_level
string when present, else the default derived from the prediction bit. -/
theorem risk_label_matches_amended_spec (fd : FormData) (o : RemoteOutcome) :
    (predictCardiovascularRisk fd o).risk_label = amendedRiskLabel fd o := by
  have hh : (heuristicPrediction fd).risk_label =
      (if claimRisk fd = 1 then "High Risk" else "Low Risk") := by
    by_cases h : 65 ≤ claimConfidence fd <;>
      simp [heuristicPrediction, claimRisk, heuristicConfidence_eq_claimConfidence, h]
  cases o with
  | failure => simpa [predictCardiovascularRisk, amendedRiskLabel] using hh
  | response r =>
      by_cases h : mlResponseRecognized r
      · simp [predictCardiovascularRisk, amendedRiskLabel, h, mlResult]
      · simpa [predictCardiovascularRisk, amendedRiskLabel, h] using hh

/-- C5: the handler renders the human-readable gender inverted — the concrete
male input (gender 2 in the input enum) is rendered with the female label,
and gender 1 with the male label. -/
theorem patient_gender_rendered_inverted :
    sampleMale.gender = 2 ∧
    (postPredictHandler sampleMale RemoteOutcome.failure false).2.patient.gender =
      "Female" ∧
    renderGender 1 = "Male" := by
  refine ⟨rfl, ?_, ?_⟩ <;> decide

/-- C6: when the insert reports an error, the handler still returns status 200
with success true, the full prediction produced by the pipeline, and
saved false. -/
theorem persistence_failure_still_returns_ok (fd : FormData) (o : RemoteOutcome) :
    (postPredictHandler fd o true).1 = 200 ∧
    (postPredictHandler fd o true).2.saved = false ∧
    (postPredictHandler fd o true).2.success = true ∧
    (postPredictHandler fd o true).2.prediction = predictCardiovascularRisk fd o ∧
    (postPredictHandler fd o true).2.ml_insights =
      (predictCardiovascularRisk fd o).ml_details :=
  ⟨rfl, rfl, rfl, rfl, rfl⟩

lemma length_insertDesc (r : StoredRecord) (l : List StoredRecord) :
    (insertDesc r l).length = l.length + 1 := by
  induction l with
  | nil => rfl
  | cons x xs ih =>
      unfold insertDesc
      split_ifs <;> simp [ih]

lemma length_sortByCreatedDesc (l : List StoredRecord) :
    (sortByCreatedDesc l).length = l.length := by
  induction l with
  | nil => rfl
  | cons x xs ih => simp [sortByCreatedDesc, length_insertDesc, ih]

lemma ceil_cast_div_eq_claimTotalPages (a b : ℕ) (hb : 1 ≤ b) :
    ⌈(a : ℚ) / (b : ℚ)⌉ = (claimTotalPages a b : ℤ) := by
  unfold claimTotalPages
  have hb0 : (0 : ℚ) < (b : ℚ) := by exact_mod_cast hb
  have hmod : b * ((a + b - 1) / b) + (a + b - 1) % b = a + b - 1 :=
    Nat.div_add_mod (a + b - 1) b
  have hlt : (a + b - 1) % b < b := Nat.mod_lt _ (by omega)
  set n := (a + b - 1) / b with hn
  have key : a ≤ b * n ∧ b * n < a + b := by
    generalize b * n = q at hmod
    omega
  refine le_antisymm (Int.ceil_le.mpr ?_) ?_
  · rw [div_le_iff₀ hb0]
    have h1q : (a : ℚ) ≤ (b : ℚ) * (n : ℚ) := by exact_mod_cast key.1
    push_cast
    linarith [h1q]
  · have h2 : ((n : ℤ) - 1) < ⌈(a : ℚ) / (b : ℚ)⌉ := by
      apply Int.lt_ceil.mpr
      rw [lt_div_iff₀ hb0]
      have h2q : (b : ℚ) * (n : ℚ) < (a : ℚ) + (b : ℚ) := by exact_mod_cast key.2
      push_cast
      ring_nf
      ring_nf at h2q
      linarith
    omega

/-- C7: for every store content, filter choice, page at least 1 and limit
between 1 and 100, the list handler returns exactly the slice of length limit
at offset (page minus 1) times limit of the matching records ordered by
creation time descending, reports the exact matching count, and reports
totalPages as the ceiling of total over limit. -/
theorem predictions_pagination_correct (store : List StoredRecord)
    (riskLevel gender : Option ℤ) (p l : ℕ)
    (hp : 1 ≤ p) (hl1 : 1 ≤ l) (hl2 : l ≤ 100) :
    (getPredictionsHandler store p l riskLevel gender).1 =
      ((sortByCreatedDesc (store.filter (matchesFilter riskLevel gender))).drop
        ((p - 1) * l)).take l ∧
    (getPredictionsHandler store p l riskLevel gender).2.total =
      (store.filter (matchesFilter riskLevel gender)).length ∧
    (getPredictionsHandler store p l riskLevel gender).2.totalPages =
      (claimTotalPages (getPredictionsHandler store p l riskLevel gender).2.total l : ℤ) := by
  have hlen : (sortByCreatedDesc (store.filter (matchesFilter riskLevel gender))).length =
      (store.filter (matchesFilter riskLevel gender)).length :=
    length_sortByCreatedDesc _
  have htake : (p - 1) * l + l - 1 + 1 - (p - 1) * l = l := by omega
  refine ⟨?_, ?_, ?_⟩
  · simp only [getPredictionsHandler, storeQuery, htake]
  · simp only [getPredictionsHandler, storeQuery]
    exact hlen
  · simp only [getPredictionsHandler, storeQuery]
    exact ceil_cast_div_eq_claimTotalPages _ _ hl1

/-- Closed instance of the C7 theorem: page 2, limit 10 on a concrete store. -/
theorem predictions_pagination_correct_witness :
    1 ≤ 2 ∧ 1 ≤ 10 ∧ 10 ≤ 100 ∧
    ((getPredictionsHandler sampleStore 2 10 none none).1 =
      ((sortByCreatedDesc (sampleStore.filter (matchesFilter none none))).drop
        ((2 - 1) * 10)).take 10 ∧
     (getPredictionsHandler sampleStore 2 10 none none).2.total =
      (sampleStore.filter (matchesFilter none none)).length ∧
     (getPredictionsHandler sampleStore 2 10 none none).2.totalPages =
      (claimTotalPages (getPredictionsHandler sampleStore 2 10 none none).2.total 10 : ℤ)) :=
  ⟨by norm_num, by norm_num, by norm_num,
   predictions_pagination_correct sampleStore none none 2 10
     (by norm_num) (by norm_num) (by norm_num)⟩

/-- C8 counterexample: on a record set containing a present-but-zero BMI
value, the computed averageBMI excludes that record (JavaScript truthiness),
while the claim includes every record that has a BMI value, so the two
disagree. -/
theorem statistics_average_bmi_counterexample :
    (computeStatistics zeroBMIData).averageBMI = 4 ∧
    (claimStatistics zeroBMIData).averageBMI = 2 ∧
    computeStatistics zeroBMIData ≠ claimStatistics zeroBMIData := by
  have h1 : (computeStatistics zeroBMIData).averageBMI = 4 := by
    norm_num [computeStatistics, zeroBMIData, bmiTruthy]
  have h2 : (claimStatistics zeroBMIData).averageBMI = 2 := by
    norm_num [claimStatistics, zeroBMIData]
    simp
  refine ⟨h1, h2, fun h => ?_⟩
  have h3 := congrArg Statistics.averageBMI h
  rw [h1, h2] at h3
  norm_num at h3

lemma bmiTruthy_eq (o : Option ℚ) :
    bmiTruthy o = (o.isSome && decide (o ≠ some 0)) := by
  cases o with
  | none => rfl
  | some q => by_cases h : q = 0 <;> simp [bmiTruthy, h, bne]

lemma lengthPos_ite_eq (L : List StoredRecord) (x : ℚ) :
    (if 0 < L.length then x else 0) = (if L = [] then 0 else x) := by
  rcases eq_or_ne L [] with h | h
  · simp [h]
  · simp [h, List.length_pos.mpr h]

/-- C8 amended: the statistics computation returns the total, risk and gender
counts and averages the claim describes, with averageBMI averaging exactly
the records whose BMI value is present and nonzero. -/
theorem statistics_matches_amended_spec (data : List StoredRecord) :
    computeStatistics data = amendedStatistics data := by
  have hf : data.filter (fun r => bmiTruthy r.bmi) =
      data.filter (fun r => r.bmi.isSome && decide (r.bmi ≠ some 0)) :=
    List.filter_congr (fun x _ => bmiTruthy_eq x.bmi)
  simp only [computeStatistics, amendedStatistics, hf, Statistics.mk.injEq,
    List.countP_eq_length_filter, lengthPos_ite_eq]
